import Mathlib

/-!
Verification development for the `mcp-perplexity-search` server
(`src/index.ts`): a shallow embedding of its `chat_completion` handler.

The handler has two phases:
 1. Template resolution (pure): `src/index.ts` lines 186-194 and the
    full variant's lines 199-215 compute `template`, `format`,
    `include_sources` and `final_messages` from the request arguments.
 2. Completion dispatch: a timed `fetch` to the Perplexity API inside
    `try { try { ... } finally { clearTimeout } } catch { ... }`,
    mapping every outcome to an MCP result envelope.

Both phases are embedded below as total executable functions, with the
outcome of the network call (the only I/O) represented as an explicit
`FetchOutcome` value fed to the dispatcher.
-/

namespace PerplexitySearch

/-- Response format, the `'text' | 'markdown' | 'json'` union of the source. -/
inductive Fmt
  | text
  | markdown
  | json
deriving DecidableEq, Repr

/-- A chat message `{ role, content }`.  The source keeps `role` as a plain
string (the synthesized system message uses the literal `'system'`). -/
structure Message where
  role : String
  content : String
deriving DecidableEq, Repr

/-- One entry of the built-in `PROMPT_TEMPLATES` catalog
(`src/index.ts` lines 40-61): `system`, `format` and `include_sources`
are all present on every entry. -/
structure NamedTemplate where
  system : String
  format : Fmt
  include_sources : Bool
deriving DecidableEq, Repr

/-- A caller-supplied custom template (the `custom_template` argument of the
full variant, schema at part_000 lines 100-122): `system` is required,
`format` and `include_sources` are optional. -/
structure CustomTemplate where
  system : String
  format : Option Fmt
  include_sources : Option Bool
deriving DecidableEq, Repr

/-- The template value flowing out of the `custom_template ?? (prompt_template
? PROMPT_TEMPLATES[prompt_template] : null)` expression: either a catalog
entry or the caller's custom template. -/
inductive Template
  | named (t : NamedTemplate)
  | custom (c : CustomTemplate)
deriving DecidableEq, Repr

/-- The `template.system` access: defined on both alternatives (required
field of both shapes). -/
def Template.system : Template → String
  | .named t => t.system
  | .custom c => c.system

/-- The `template?.format` optional-chaining access: a named template always
has a format, a custom one may omit it. -/
def Template.formatOpt : Template → Option Fmt
  | .named t => some t.format
  | .custom c => c.format

/-- The `template?.include_sources` optional-chaining access. -/
def Template.includeSourcesOpt : Template → Option Bool
  | .named t => some t.include_sources
  | .custom c => c.include_sources

/-- The `PROMPT_TEMPLATES` catalog of `src/index.ts` lines 40-61, as the
JavaScript object indexing behaves at runtime: a total map from arbitrary
string keys to an optional entry (`undefined` for a key not in the object). -/
def PROMPT_TEMPLATES : String → Option NamedTemplate
  | "technical_docs" => some
      { system := "You are a technical documentation assistant. Provide clear, accurate, and well-structured information with code examples where relevant."
        format := Fmt.markdown
        include_sources := true }
  | "security_practices" => some
      { system := "You are a security expert. Provide detailed security best practices, implementation guidelines, and potential vulnerability mitigations."
        format := Fmt.markdown
        include_sources := true }
  | "code_review" => some
      { system := "You are a code review assistant. Analyze code for best practices, potential issues, and suggest improvements."
        format := Fmt.markdown
        include_sources := false }
  | "api_docs" => some
      { system := "You are an API documentation assistant. Provide clear explanations of API endpoints, parameters, and usage examples."
        format := Fmt.json
        include_sources := true }
  | _ => none

/-- Line 200-204 of the full variant:
`const template = custom_template ?? (prompt_template ?
PROMPT_TEMPLATES[prompt_template] : null);`.
A missing catalog key makes the whole expression nullish (JavaScript
indexing yields `undefined`), so the result is `none`. -/
def resolveTemplate (custom_template : Option CustomTemplate)
    (prompt_template : Option String) : Option Template :=
  match custom_template with
  | some c => some (Template.custom c)
  | none =>
    match prompt_template with
    | some key => (PROMPT_TEMPLATES key).map Template.named
    | none => none

/-- The per-request effective configuration: the system prompt that will be
prepended (if any), and the resolved `format` / `include_sources` values. -/
structure EffectiveConfig where
  systemPrompt : Option String
  format : Fmt
  includeSources : Bool
deriving DecidableEq, Repr

/-- Lines 200-207 of the full variant:
`const format = user_format ?? template?.format ?? 'text';`
`const include_sources = user_include_sources ?? template?.include_sources ?? false;`
together with the system prompt carried by the selected template.
`??` only falls through on nullish values, so an explicit `false` for
`include_sources` is kept — `Option.getD` models this exactly. -/
def resolve (prompt_template : Option String)
    (custom_template : Option CustomTemplate)
    (user_format : Option Fmt) (user_include_sources : Option Bool) :
    EffectiveConfig :=
  let template := resolveTemplate custom_template prompt_template
  { systemPrompt := template.map Template.system
    format := user_format.getD ((template.bind Template.formatOpt).getD Fmt.text)
    includeSources :=
      user_include_sources.getD ((template.bind Template.includeSourcesOpt).getD false) }

/-- Lines 210-215 of the full variant:
`const final_messages = template ? [{ role: 'system', content:
template.system }, ...messages] : messages;`. -/
def final_messages (template : Option Template) (messages : List Message) :
    List Message :=
  match template with
  | some t => { role := "system", content := t.system } :: messages
  | none => messages

/-- The declared `PerplexityResponse` choice shape, as the runtime cast
actually leaves it: the body is unchecked JSON, so `message` may be absent
(the code only tests `data.choices?.[0]?.message`).  `finish_reason` is
declared but never read. -/
structure Choice where
  message : Option Message
  finish_reason : Option String
deriving DecidableEq, Repr

/-- A parsed success-status body.  `choices` may be absent (e.g. the body
`{}` parses to `{ choices := none }`). -/
structure PerplexityData where
  choices : Option (List Choice)
deriving DecidableEq, Repr

/-- The `data.choices?.[0]?.message` optional-chaining expression of the
response-shape check (lines 259-264). -/
def extractMessage (d : PerplexityData) : Option Message :=
  (d.choices.bind List.head?).bind Choice.message

/-- The possible outcomes of the timed `fetch` plus body parsing, the only
I/O of the handler.  Each failure constructor carries the message of the
exception the JavaScript runtime throws on that path. -/
inductive FetchOutcome
  | timeout (msg : String)
  | fetchError (msg : String)
  | badStatus (statusText : String) (errorDetail : Option String)
  | okBody (body : Except String PerplexityData)
deriving Repr

/-- `timeout msg`: the 30-second timer fired, `controller.abort()` made
`fetch` reject with an abort error whose message is `msg`.
`fetchError msg`: `fetch` rejected for any other reason (network failure).
`badStatus st d`: `!response.ok`; `d` is the `error` field of the parsed
error body, `none` when the body did not parse (`.catch(() => ({}))`) or
has no such field.
`okBody (.error msg)`: success status but `response.json()` rejected.
`okBody (.ok data)`: success status with parsed body `data`. -/
def FetchOutcome.isFailure : FetchOutcome → Bool
  | .timeout _ => true
  | .fetchError _ => true
  | .badStatus _ _ => true
  | .okBody (.error _) => true
  | .okBody (.ok d) => (extractMessage d).isNone

/-- Content-type tag of an envelope entry (`type: format === 'json' ? 'json'
: 'text'` on success, always `'text'` on error). -/
inductive ContentType
  | text
  | json
deriving DecidableEq, Repr

/-- One entry of the result envelope's `content` array. -/
structure ContentItem where
  type : ContentType
  text : String
deriving DecidableEq, Repr

/-- The MCP result envelope `{ content: [...], isError?: bool }`.  The
success return omits `isError`, which the protocol reads as false, so the
embedding stores `false` there. -/
structure McpEnvelope where
  content : List ContentItem
  isError : Bool
deriving DecidableEq, Repr

/-- Lines 245-255: the non-success-status error message
`` `Perplexity API error: ${statusText}${errorData.error ? ` - ${errorData.error}` : ''}` ``.
The inner condition is JavaScript truthiness of the `error` field, so an
empty-string detail adds no suffix. -/
def apiErrorMessage (statusText : String) (errorDetail : Option String) :
    String :=
  "Perplexity API error: " ++ statusText ++
    match errorDetail with
    | some e => if e = "" then "" else " - " ++ e
    | none => ""

/-- The success-path content-type ternary of line 269:
`format === 'json' ? 'json' : 'text'`. -/
def contentTypeFor (format : Fmt) : ContentType :=
  if format = Fmt.json then ContentType.json else ContentType.text

/-- The body of the inner `try` (lines 224-273): either the success envelope,
or the message of the exception thrown on that path (abort, network error,
the `McpError` thrown for a bad status or a malformed body, or a body-parse
rejection). -/
def attemptCall (format : Fmt) (outcome : FetchOutcome) :
    Except String McpEnvelope :=
  match outcome with
  | .timeout msg => .error msg
  | .fetchError msg => .error msg
  | .badStatus st d => .error (apiErrorMessage st d)
  | .okBody (.error msg) => .error msg
  | .okBody (.ok data) =>
    match extractMessage data with
    | none => .error "Invalid response format from Perplexity API"
    | some m =>
      .ok { content := [{ type := contentTypeFor format, text := m.content }]
            isError := false }

/-- State of the 30-second timer created by `setTimeout` at line 219. -/
structure TimerState where
  pending : Bool
deriving DecidableEq, Repr

/-- JavaScript `try { body } finally { fin }` when `fin` itself cannot throw:
the finalizer runs on the state whether the body completed or threw, and the
body's result or exception is passed through. -/
def tryFinallyState {σ α ε : Type} (body : σ → Except ε α × σ) (fin : σ → σ)
    (s : σ) : Except ε α × σ :=
  let r := body s
  (r.1, fin r.2)

/-- Lines 218-276: create the timer (`setTimeout`, pending), run the inner
try body, and clear the timer in the `finally` block on whichever way the
body exited. -/
def callWithTimeout (format : Fmt) (outcome : FetchOutcome) :
    Except String McpEnvelope × TimerState :=
  tryFinallyState (fun s => (attemptCall format outcome, s))
    (fun s => { s with pending := false })
    { pending := true }

/-- The arguments of a `chat_completion` call that affect the claims.
`model`, `temperature` and `max_tokens` are destructured with defaults and
passed through to the outbound body untouched; no claim concerns them. -/
structure ChatCompletionArgs where
  messages : List Message
  prompt_template : Option String
  custom_template : Option CustomTemplate
  user_format : Option Fmt
  user_include_sources : Option Bool
deriving Repr

/-- The message of the exception thrown on each failing outcome (junk on a
fully successful outcome, where nothing is thrown). -/
def failureMessage : FetchOutcome → String
  | .timeout msg => msg
  | .fetchError msg => msg
  | .badStatus st d => apiErrorMessage st d
  | .okBody (.error msg) => msg
  | .okBody (.ok _) => "Invalid response format from Perplexity API"

/-- The whole `chat_completion` request handler after argument
destructuring (lines 199-291): template resolution, the timed call, and the
outer `catch (error)` that turns any thrown exception into
`{ content: [{ type: 'text', text: 'Error generating completion: ' +
error.message }], isError: true }`.  Totality of this function models the
catch-all: no exception escapes to the protocol layer. -/
def handle_chat_completion (args : ChatCompletionArgs)
    (outcome : FetchOutcome) : McpEnvelope :=
  let cfg := resolve args.prompt_template args.custom_template
    args.user_format args.user_include_sources
  match (callWithTimeout cfg.format outcome).1 with
  | .ok env => env
  | .error msg =>
    { content := [{ type := ContentType.text
                    text := "Error generating completion: " ++ msg }]
      isError := true }

/-- Arguments with every optional field absent, for concrete evaluations. -/
def noArgs : ChatCompletionArgs :=
  { messages := []
    prompt_template := none
    custom_template := none
    user_format := none
    user_include_sources := none }

/-- Claim C1.  The spec says an unknown `prompt_template` key must fail with
an invalid-argument error and never be treated as "no template".  The
handler code does the opposite: `PROMPT_TEMPLATES[key]` is `undefined` for a
key outside the catalog, so `template` is nullish and the request proceeds
exactly as if no template had been supplied — the resolved configuration
equals the no-template configuration and the message list is unchanged,
contradicting the enum the tool's own input schema declares for this
argument. -/
theorem unknown_template_key_silently_dropped :
    resolveTemplate none (some "totally_bogus_key") = none ∧
    resolve (some "totally_bogus_key") none none none =
      { systemPrompt := none, format := Fmt.text, includeSources := false } ∧
    resolve (some "totally_bogus_key") none none none =
      resolve none none none none ∧
    final_messages (resolveTemplate none (some "totally_bogus_key"))
      [{ role := "user", content := "hi" }] =
      [{ role := "user", content := "hi" }] :=
  ⟨rfl, rfl, rfl, rfl⟩

/-- Claim C2.  When `custom_template` is present it is taken wholesale by the
`??` chain before `prompt_template` is even inspected: the resolved
configuration is the same for every value of `prompt_template`, with no
field-level merge between the custom and any named template. -/
theorem custom_template_supersedes_named (pt : Option String)
    (c : CustomTemplate) (fo : Option Fmt) (so : Option Bool) :
    resolve pt (some c) fo so = resolve none (some c) fo so := rfl

/-- Claim C3.  The override chains of lines 205-207: the effective format is
the explicit per-call format when present, else the selected template's
format, else `text`; the effective `includeSources` is the explicit per-call
value when present (an explicit `false` included), else the selected
template's `include_sources`, else `false`; and with no template and no
overrides the configuration is `{systemPrompt := none, format := text,
includeSources := false}`. -/
theorem resolve_override_chain :
    (∀ pt ct f so, (resolve pt ct (some f) so).format = f) ∧
    (∀ pt ct so t ft, resolveTemplate ct pt = some t →
      Template.formatOpt t = some ft → (resolve pt ct none so).format = ft) ∧
    (∀ pt ct fo b, (resolve pt ct fo (some b)).includeSources = b) ∧
    (∀ pt ct fo t bs, resolveTemplate ct pt = some t →
      Template.includeSourcesOpt t = some bs →
      (resolve pt ct fo none).includeSources = bs) ∧
    (∀ pt ct so, resolveTemplate ct pt = none →
      (resolve pt ct none so).format = Fmt.text) ∧
    (∀ pt ct fo, resolveTemplate ct pt = none →
      (resolve pt ct fo none).includeSources = false) ∧
    resolve none none none none =
      { systemPrompt := none, format := Fmt.text, includeSources := false } := by
  refine ⟨fun pt ct f so => rfl, fun pt ct so t ft h1 h2 => ?_,
    fun pt ct fo b => ?_, fun pt ct fo t bs h1 h2 => ?_,
    fun pt ct so h => ?_, fun pt ct fo h => ?_, rfl⟩
  · simp [resolve, h1, h2]
  · simp [resolve]
  · simp [resolve, h1, h2]
  · simp [resolve, h]
  · simp [resolve, h]

/-- Concrete instance of the override chain: an explicit `json` overrides
`technical_docs`' `markdown`; with no explicit format the template's
`markdown` applies; an explicit `false` overrides the template's
`include_sources = true`. -/
theorem resolve_override_chain_witness :
    (resolve (some "technical_docs") none (some Fmt.json) none).format =
      Fmt.json ∧
    (resolve (some "technical_docs") none none none).format = Fmt.markdown ∧
    (resolve (some "technical_docs") none none (some false)).includeSources =
      false :=
  ⟨resolve_override_chain.1 _ _ _ _,
   resolve_override_chain.2.1 (some "technical_docs") none none _ _ rfl rfl,
   resolve_override_chain.2.2.1 _ _ _ _⟩

/-- Claim C4.  Message composition: when a system prompt `P` was resolved,
the outbound sequence is exactly `{role := system, content := P}` consed
onto the caller's list (so the caller's messages keep their order and
count); when no system prompt was resolved the sequence is the caller's
list unchanged. -/
theorem final_messages_composition (pt : Option String)
    (ct : Option CustomTemplate) (fo : Option Fmt) (so : Option Bool)
    (m : List Message) :
    (∀ P, (resolve pt ct fo so).systemPrompt = some P →
      final_messages (resolveTemplate ct pt) m =
        { role := "system", content := P } :: m) ∧
    ((resolve pt ct fo so).systemPrompt = none →
      final_messages (resolveTemplate ct pt) m = m) := by
  cases h : resolveTemplate ct pt with
  | none =>
    refine ⟨fun P hP => ?_, fun _ => ?_⟩
    · simp [resolve, h] at hP
    · simp [final_messages]
  | some t =>
    refine ⟨fun P hP => ?_, fun hP => ?_⟩
    · simp only [resolve, h, Option.map_some] at hP
      simp [final_messages, ← Option.some_inj.mp hP]
    · simp [resolve, h] at hP

/-- Concrete instance of message composition: a custom template with system
prompt `"P"` and caller messages `[{user, "hi"}]` compose to
`[{system, "P"}, {user, "hi"}]`; with no template the list is unchanged. -/
theorem final_messages_composition_witness :
    final_messages
        (resolveTemplate
          (some { system := "P", format := none, include_sources := none })
          none)
        [{ role := "user", content := "hi" }] =
      [{ role := "system", content := "P" },
       { role := "user", content := "hi" }] ∧
    final_messages (resolveTemplate none none)
        [{ role := "user", content := "hi" }] =
      [{ role := "user", content := "hi" }] :=
  ⟨(final_messages_composition none
      (some { system := "P", format := none, include_sources := none })
      none none _).1 "P" rfl,
   (final_messages_composition none none none none _).2 rfl⟩

/-- Claim C7.  Resolving any key of the `PROMPT_TEMPLATES` catalog with no
custom template and no overrides yields exactly the catalog entry's
`(system, format, include_sources)`. -/
theorem named_template_resolution (key : String) (t : NamedTemplate)
    (h : PROMPT_TEMPLATES key = some t) :
    resolve (some key) none none none =
      { systemPrompt := some t.system
        format := t.format
        includeSources := t.include_sources } := by
  simp [resolve, resolveTemplate, h, Template.system, Template.formatOpt,
    Template.includeSourcesOpt]

/-- Concrete instance of catalog resolution at the `api_docs` entry. -/
theorem named_template_resolution_witness :
    resolve (some "api_docs") none none none =
      { systemPrompt := some "You are an API documentation assistant. Provide clear explanations of API endpoints, parameters, and usage examples."
        format := Fmt.json
        includeSources := true } :=
  named_template_resolution "api_docs" _ rfl

/-- Helper: on every failing outcome the inner try body throws, and the
message of the exception is `failureMessage outcome`. -/
theorem attemptCall_error_of_failure (format : Fmt) (outcome : FetchOutcome)
    (h : outcome.isFailure = true) :
    attemptCall format outcome = Except.error (failureMessage outcome) := by
  cases outcome with
  | timeout msg => rfl
  | fetchError msg => rfl
  | badStatus st d => rfl
  | okBody body =>
    cases body with
    | error msg => rfl
    | ok data =>
      have h' : extractMessage data = none := by
        simpa [FetchOutcome.isFailure, Option.isNone_iff_eq_none] using h
      simp [attemptCall, failureMessage, h']

/-- Helper: the envelope the handler returns, as a function of the result of
the timed call. -/
theorem handle_eq_of_callWithTimeout (args : ChatCompletionArgs)
    (outcome : FetchOutcome) :
    handle_chat_completion args outcome =
      match attemptCall
          (resolve args.prompt_template args.custom_template args.user_format
            args.user_include_sources).format outcome with
      | .ok env => env
      | .error msg =>
        { content := [{ type := ContentType.text
                        text := "Error generating completion: " ++ msg }]
          isError := true } := rfl

/-- Claim C5.  Every failing outcome of the remote call — timeout, network
failure, non-success status, or malformed body (unparseable or lacking
`choices[0].message`) — produces a normal result envelope with
`isError = true`; `handle_chat_completion` is a total function into
envelopes, so no exception from these paths escapes to the protocol
layer. -/
theorem failure_outcomes_return_error_envelope (args : ChatCompletionArgs)
    (outcome : FetchOutcome) (h : outcome.isFailure = true) :
    (handle_chat_completion args outcome).isError = true := by
  rw [handle_eq_of_callWithTimeout, attemptCall_error_of_failure _ _ h]

/-- Concrete instance: a timed-out call yields an error-flagged envelope. -/
theorem failure_outcomes_return_error_envelope_witness :
    (FetchOutcome.timeout "This operation was aborted").isFailure = true ∧
    (handle_chat_completion noArgs
      (FetchOutcome.timeout "This operation was aborted")).isError = true :=
  ⟨rfl, failure_outcomes_return_error_envelope noArgs _ rfl⟩

/-- Claim C6.  A success-status response whose parsed body lacks the
`choices[0].message` shape yields an error envelope whose diagnostic is the
"Invalid response format" message — never a success envelope with empty
content. -/
theorem malformed_body_yields_error_envelope (args : ChatCompletionArgs)
    (data : PerplexityData) (h : extractMessage data = none) :
    handle_chat_completion args (FetchOutcome.okBody (Except.ok data)) =
      { content := [{ type := ContentType.text
                      text := "Error generating completion: Invalid response format from Perplexity API" }]
        isError := true } := by
  rw [handle_eq_of_callWithTimeout]
  simp [attemptCall, h]

/-- Concrete instance: the body `{}` (no `choices` field) produces the
malformed-response error envelope. -/
theorem malformed_body_yields_error_envelope_witness :
    extractMessage { choices := none } = none ∧
    handle_chat_completion noArgs
        (FetchOutcome.okBody (Except.ok { choices := none })) =
      { content := [{ type := ContentType.text
                      text := "Error generating completion: Invalid response format from Perplexity API" }]
        isError := true } :=
  ⟨rfl, malformed_body_yields_error_envelope noArgs { choices := none } rfl⟩

/-- Claim C8.  A successful response with the expected shape returns exactly
one content entry, tagged `json` when the effective format is `json` and
`text` otherwise (markdown included), whose text is `choices[0].message
.content` verbatim — no reformatting, re-parsing or validation. -/
theorem success_response_mapping (args : ChatCompletionArgs)
    (data : PerplexityData) (m : Message) (h : extractMessage data = some m) :
    handle_chat_completion args (FetchOutcome.okBody (Except.ok data)) =
      { content :=
          [{ type := contentTypeFor (resolve args.prompt_template
                       args.custom_template args.user_format
                       args.user_include_sources).format,
             text := m.content }]
        isError := false } := by
  rw [handle_eq_of_callWithTimeout]
  simp [attemptCall, h]

/-- Concrete instance: with effective format `markdown`, a body carrying the
message content `"# hello"` returns a single `text`-typed entry holding that
content verbatim. -/
theorem success_response_mapping_witness :
    handle_chat_completion
        { noArgs with user_format := some Fmt.markdown }
        (FetchOutcome.okBody (Except.ok
          { choices := some
              [{ message := some { role := "assistant", content := "# hello" },
                 finish_reason := some "stop" }] })) =
      { content := [{ type := ContentType.text, text := "# hello" }]
        isError := false } :=
  success_response_mapping { noArgs with user_format := some Fmt.markdown }
    { choices := some
        [{ message := some { role := "assistant", content := "# hello" },
           finish_reason := some "stop" }] }
    { role := "assistant", content := "# hello" } rfl

/-- Claim C9.  The timer is cleared on every exit path of the timed call:
whatever the fetch outcome (success, bad status, parse failure, abort), the
`finally` block has run and the timer is no longer pending when the call
returns. -/
theorem timer_cleared_on_every_exit (format : Fmt) (outcome : FetchOutcome) :
    (callWithTimeout format outcome).2.pending = false := rfl

/-- Claim C10.  On every failing request the envelope has exactly one content
entry, its type is `text` (even when the requested format was `json`), and
its text is the fixed prefix "Error generating completion: " followed by the
underlying error's message. -/
theorem error_envelope_shape (args : ChatCompletionArgs)
    (outcome : FetchOutcome) (h : outcome.isFailure = true) :
    handle_chat_completion args outcome =
      { content := [{ type := ContentType.text
                      text := "Error generating completion: " ++
                        failureMessage outcome }]
        isError := true } := by
  rw [handle_eq_of_callWithTimeout, attemptCall_error_of_failure _ _ h]

/-- Concrete instance: a 400 response with error detail, under a request
that asked for `json`, still yields a single `text`-typed entry with the
prefixed diagnostic. -/
theorem error_envelope_shape_witness :
    (FetchOutcome.badStatus "Bad Request" (some "invalid model")).isFailure =
      true ∧
    handle_chat_completion { noArgs with user_format := some Fmt.json }
        (FetchOutcome.badStatus "Bad Request" (some "invalid model")) =
      { content := [{ type := ContentType.text
                      text := "Error generating completion: Perplexity API error: Bad Request - invalid model" }]
        isError := true } := by
  refine ⟨rfl, ?_⟩
  rw [error_envelope_shape { noArgs with user_format := some Fmt.json }
    (FetchOutcome.badStatus "Bad Request" (some "invalid model")) rfl]
  simp [failureMessage, apiErrorMessage]

end PerplexitySearch
